import Mathlib

/-!
Verification of the entity-caching / object-graph layer of the `helly`
chat-platform API client.

The embedding models the TypeScript sources shallowly:
- a JavaScript object field that may be absent is an `Option`;
- an exception-throwing access path is a `none`-valued result;
- the mutable `this` of a class instance is explicit state passing
  (`Message → Message`, `Channel → Channel`), and the client-wide manager
  caches are an explicit `ClientState` record threaded through the
  accessors that can touch them;
- JS spread merge `{...old, ...new}` is a per-field override where a field
  present in `new` wins and a field absent in `new` keeps the old value;
- JS truthiness tests (`!data`, `code && message`, ternary on a string)
  are modelled per the JS coercion rules for the value's type.
-/

namespace Helly

/-- JS spread-merge semantics for one field: the incoming (`n`) value wins
when present, otherwise the existing (`o`) value is kept. -/
def jsOverride {α : Type} (n o : Option α) : Option α :=
  match n with
  | some v => some v
  | none => o

/-- JS truthiness of a string-valued expression used in a ternary: `undefined`
and the empty string are falsy. -/
def truthyStr (s : Option String) : Option String :=
  match s with
  | none => none
  | some v => if v = "" then none else some v

/-- Association-list lookup, modelling `cache.get(key)` on a manager's
key → entity map. -/
def assocGet {α : Type} (l : List (String × α)) (k : String) : Option α :=
  match l with
  | [] => none
  | (k2, v) :: rest => if k2 = k then some v else assocGet rest k

/-- Association-list update, modelling `cache.set(key, value)` on a key that
is already present. -/
def assocSet {α : Type} (l : List (String × α)) (k : String) (v : α) :
    List (String × α) :=
  match l with
  | [] => [(k, v)]
  | (k2, v2) :: rest =>
    if k2 = k then (k2, v) :: rest else (k2, v2) :: assocSet rest k v

/-- Embedding of the raw user payload (`APIUser`) as far as the sources under
verification read it: `Message.author` only dereferences `.id` and stores the
whole payload. -/
structure APIUser where
  id : String
  username : Option String
deriving DecidableEq, Repr

/-- Embedding of a raw embed payload; the sources treat embeds as opaque
values handed to `EmbedBuilder`. -/
structure APIEmbed where
  title : Option String
deriving DecidableEq, Repr

/-- `EmbedBuilder` wraps a raw embed payload (`new EmbedBuilder(e)`). -/
structure EmbedBuilder where
  data : APIEmbed
deriving DecidableEq, Repr

/-- Embedding of a raw message-component payload; the sources treat
components as opaque values handed to `Parsers.messageComponents`. -/
structure APIMessageComponent where
  kind : Nat
deriving DecidableEq, Repr

/-- A parsed component value object. -/
structure ParsedComponent where
  raw : APIMessageComponent
deriving DecidableEq, Repr

/-- Modelled from the spec: `Parsers.messageComponents` is not under `src/`;
the spec scopes sub-object parsing as an opaque producer of value objects,
so it is modelled as the opaque wrapping of the raw payload. -/
def Parsers.messageComponents (c : APIMessageComponent) : ParsedComponent :=
  ⟨c⟩

/-- Embedding of `APIMessage` restricted to the fields the `Message` class
reads; every field is optional because update payloads are partial
(`MessageData = Partial<Message>`). -/
structure MessageData where
  id : Option String
  channel_id : Option String
  guild_id : Option String
  author : Option APIUser
  content : Option String
  pinned : Option Bool
  tts : Option Bool
  embeds : Option (List APIEmbed)
  components : Option (List APIMessageComponent)
  type : Option Nat
deriving DecidableEq, Repr

/-- The payload with every field absent. -/
def MessageData.empty : MessageData :=
  ⟨none, none, none, none, none, none, none, none, none, none⟩

/-- JS spread merge `{...old, ...data}` over the embedded `APIMessage`
fields: each field present in `data` overwrites, each absent field keeps the
old value. -/
def spreadMerge (old d : MessageData) : MessageData where
  id := jsOverride d.id old.id
  channel_id := jsOverride d.channel_id old.channel_id
  guild_id := jsOverride d.guild_id old.guild_id
  author := jsOverride d.author old.author
  content := jsOverride d.content old.content
  pinned := jsOverride d.pinned old.pinned
  tts := jsOverride d.tts old.tts
  embeds := jsOverride d.embeds old.embeds
  components := jsOverride d.components old.components
  type := jsOverride d.type old.type

/-- A live `Message` instance: the class holds only the raw payload in its
private `data` field (the `client` back-reference is the explicitly threaded
`ClientState`). -/
structure Message where
  data : MessageData
deriving DecidableEq, Repr

/-- `Message`'s constructor: stores the payload unvalidated
(`this.data = data`); there is no required-field check and no throw path. -/
def Message.construct (data : MessageData) : Message :=
  ⟨data⟩

/-- `Message.parseData`: `if (!data) return;` then
`this.data = { ...this.data, ...data }` — a falsy (absent) payload is a
no-op, otherwise a JS spread partial merge into the stored payload. -/
def Message.parseData (m : Message) (data : Option MessageData) : Message :=
  match data with
  | none => m
  | some d => ⟨spreadMerge m.data d⟩

/-- The named channel types are strings in the source
(`type === 'GUILD_TEXT'`, `'UNKNOWN'`). -/
abbrev ChannelType := String

/-- Modelled from the spec: the `RawChannelTypes` numeric-to-named table
(`src/constants/channelTypes`) is not under `src/`; only the text type is
pinned down by `Channel.isText` (`type === 'GUILD_TEXT'`).  A raw type with
no table entry — and an absent raw type, since `RawChannelTypes[undefined]`
is `undefined` — yields no name. -/
def RawChannelTypes (t : Option Nat) : Option ChannelType :=
  match t with
  | some 0 => some "GUILD_TEXT"
  | _ => none

/-- Modelled from the spec: `Snowflake.deconstruct` is not under `src/`; the
spec calls the identity key a time-ordered ID, so the timestamp is derived
from the numeric id (upper bits) plus the platform epoch.  It is a pure
function of the id string, which is all the claims need. -/
def Snowflake.deconstruct (id : Option String) : Nat :=
  ((id.getD "").toNat?.getD 0) / 2 ^ 22 + 1420070400000

/-- A guild entity, as far as the sources under verification read it:
`Message.guild`/`guildId` only dereference a cached guild or a channel's
`guild.id`. -/
structure Guild where
  id : String
deriving DecidableEq, Repr

/-- Embedding of a raw channel payload restricted to the keys
`Channel.parseData` reads (`id`, `name`, `type`); each is optional because
payloads are partial. -/
structure ChannelData where
  id : Option String
  name : Option String
  type : Option Nat
deriving DecidableEq, Repr

/-- A live `Channel` instance: its declared fields.  Each field is `Option`
because the class declares them with definite-assignment assertions (`!`)
and a field stays `undefined` until `parseData` assigns it. -/
structure Channel where
  id : Option String
  name : Option String
  type : Option ChannelType
  createdTimestamp : Option Nat
  guild : Option Guild
deriving DecidableEq, Repr

/-- `Channel.parseData`: `if (typeof data === 'undefined') return null;`
then `id` and `name` are assigned only when the key is in the payload
(`'id' in data`, `'name' in data`), `createdTimestamp` is recomputed from
the (possibly just-updated) id, and `type` is assigned unconditionally as
`RawChannelTypes[data.type] ?? 'UNKNOWN'`. -/
def Channel.parseData (c : Channel) (data : Option ChannelData) : Channel :=
  match data with
  | none => c
  | some d =>
    let c1 := match d.id with
      | some i => { c with id := some i }
      | none => c
    let c2 := { c1 with
      createdTimestamp := some (Snowflake.deconstruct c1.id) }
    let c3 := match d.name with
      | some n => { c2 with name := some n }
      | none => c2
    { c3 with type := some ((RawChannelTypes d.type).getD "UNKNOWN") }

/-- `Channel`'s constructor: `this.guild = guild; this.parseData(data);`
starting from an instance with every declared field still unassigned. -/
def Channel.construct (data : Option ChannelData) (guild : Option Guild) :
    Channel :=
  Channel.parseData ⟨none, none, none, none, guild⟩ data

/-- The pure response-handling step of `Channel.delete`: from the transport
response payload `data`, the method returns
`new Channel(this.client, data, this.guild)` — a freshly constructed object,
built without consulting or updating any manager cache. -/
def Channel.deleteResult (c : Channel) (data : Option ChannelData) :
    Channel :=
  Channel.construct data c.guild

/-- The client-wide manager caches: one key → entity map per entity kind
(`client.users.cache`, `client.channels.cache`, `client.guilds.cache`). -/
structure ClientState where
  users : List (String × APIUser)
  channels : List (String × Channel)
  guilds : List (String × Guild)
deriving DecidableEq, Repr

/-- Modelled from the spec: `client.users.updateOrSet` (the user manager is
not under `src/`) is the spec's upsert — look the key up in the cache; if
absent, store the payload as the new entry; if present, partial-merge the
payload into the existing entry in place.  Returns the resulting entity and
the updated state. -/
def ClientState.usersUpdateOrSet (s : ClientState) (id : String)
    (u : APIUser) : APIUser × ClientState :=
  match assocGet s.users id with
  | some existing =>
    let merged : APIUser := ⟨existing.id, jsOverride u.username existing.username⟩
    (merged, { s with users := assocSet s.users id merged })
  | none => (u, { s with users := s.users ++ [(id, u)] })

/-- `Message.id`: `return this.data.id;` (absent when the stored payload
lacks the field). -/
def Message.id (m : Message) : Option String :=
  m.data.id

/-- `Message.content`: `return this.data.content || '';` — for a string
field, `|| ''` yields the empty string exactly when the field is absent or
already empty, i.e. the absent case defaults to `""`. -/
def Message.content (m : Message) : String :=
  m.data.content.getD ""

/-- `Message.pinned`: `return this.data.pinned ?? false;`. -/
def Message.pinned (m : Message) : Bool :=
  m.data.pinned.getD false

/-- `Message.tts`: `return this.data.tts ?? false;`. -/
def Message.tts (m : Message) : Bool :=
  m.data.tts.getD false

/-- `Message.components`:
`return this.data.components?.map(c => Parsers.messageComponents(c)) ?? [];`
— optional chaining plus `?? []` defaults the absent case to the empty
list. -/
def Message.components (m : Message) : List ParsedComponent :=
  match m.data.components with
  | some cs => cs.map Parsers.messageComponents
  | none => []

/-- `Message.embeds`: `return this.data.embeds.map(e => new EmbedBuilder(e));`
— **no** optional chaining: when the `embeds` field is absent the source
dereferences `undefined.map` and throws a `TypeError`; the throw is modelled
as `none`, the successful read as `some` of the built list. -/
def Message.embeds (m : Message) : Option (List EmbedBuilder) :=
  match m.data.embeds with
  | some es => some (es.map EmbedBuilder.mk)
  | none => none

/-- `Message.channelId`: `return this.data.channel_id;`. -/
def Message.channelId (m : Message) : Option String :=
  m.data.channel_id

/-- `Message.channel`:
`return this.channelId ? this.client.channels.cache.get(this.channelId) : undefined;`
— a ternary on the (string) channel id's truthiness, then a pure cache
read. -/
def Message.channel (m : Message) (s : ClientState) : Option Channel :=
  match truthyStr m.data.channel_id with
  | some cid => assocGet s.channels cid
  | none => none

/-- `Message.guildId`:
`return this.data.guild_id ?? this.channel?.guild?.id;` — the stored guild
id when present (`??`, not truthiness), else the cached channel's guild's
id via optional chaining. -/
def Message.guildId (m : Message) (s : ClientState) : Option String :=
  match m.data.guild_id with
  | some g => some g
  | none => ((Message.channel m s).bind Channel.guild).map Guild.id

/-- `Message.guild`:
`return this.guildId ? this.client.guilds.cache.get(this.guildId) ?? this.channel?.guild : undefined;`
— a ternary on the guild id's truthiness, then a guild-cache read with a
fallback through the cached channel's `guild` field; pure reads only. -/
def Message.guild (m : Message) (s : ClientState) : Option Guild :=
  match truthyStr (Message.guildId m s) with
  | some gid =>
    match assocGet s.guilds gid with
    | some g => some g
    | none => (Message.channel m s).bind Channel.guild
  | none => none

/-- `Message.author`:
`return this.client.users.cache.get(this.data.author.id) ?? this.client.users.updateOrSet(this.data.author.id, this.data.author);`
— a user-cache read that, on a miss, falls back to `updateOrSet`, which
writes the message's embedded author payload into the user cache.  The
state is threaded explicitly; dereferencing `.id` of an absent `author`
field would throw, modelled as `none` with the state unchanged. -/
def Message.author (m : Message) (s : ClientState) :
    Option APIUser × ClientState :=
  match m.data.author with
  | none => (none, s)
  | some a =>
    match assocGet s.users a.id with
    | some u => (some u, s)
    | none =>
      let r := ClientState.usersUpdateOrSet s a.id a
      (some r.1, r.2)

/-- JS truthiness of a number-valued expression in `&&`: `undefined` and
`0` are falsy. -/
def jsTruthyNum (n : Option Int) : Bool :=
  match n with
  | none => false
  | some v => v != 0

/-- JS truthiness of a string-valued expression in `&&`: `undefined` and
the empty string are falsy. -/
def jsTruthyStrB (s : Option String) : Bool :=
  match s with
  | none => false
  | some v => v != ""

/-- The structured JSON error payload as `verifyForJSONStatusCode` reads it:
a numeric `code` and a string `message`, either possibly absent. -/
structure JSONResponse where
  code : Option Int
  message : Option String
deriving DecidableEq, Repr

/-- The template-literal diagnostic text shared by every raised error:
`...\nEndpoint: ${endpoint}\nMethod: ${method}\nData: ${data ?? 'empty'}`. -/
def errText (head endpoint method : String) (data : Option String) :
    String :=
  head ++ ("\nEndpoint: " ++ (endpoint ++ ("\nMethod: "
    ++ (method ++ ("\nData: " ++ data.getD "empty")))))

/-- `verifyForStatusCode`: a `switch` on the transport status code that
throws a `DiscordAPIError` for 400, 401, 403 and 404 and falls through
(no throw) for every other code.  A thrown error is `some` of its message. -/
def verifyForStatusCode (endpoint : String) (data : Option String)
    (code : Nat) (method : String) : Option String :=
  if code = 400 then
    some (errText "DiscordAPIError: Bad Request (400)" endpoint method data)
  else if code = 401 then
    some (errText "DiscordAPIError: Not Authorized (401)" endpoint method data)
  else if code = 403 then
    some (errText "DiscordAPIError: Missing Permissions (403)" endpoint method data)
  else if code = 404 then
    some (errText "DiscordAPIError: Not Found (404)" endpoint method data)
  else
    none

/-- `verifyForJSONStatusCode`: throws a `DiscordAPIError` exactly when
`jsonResponse.code && jsonResponse.message` is truthy; the request body is
a string here (`typeof data === 'object'` is false), so the interpolation
is `data ?? 'empty'` as in `verifyForStatusCode`. -/
def verifyForJSONStatusCode (jsonResponse : JSONResponse)
    (endpoint : String) (data : Option String) (method : String) :
    Option String :=
  if jsTruthyNum jsonResponse.code && jsTruthyStrB jsonResponse.message then
    some (errText
      ("DiscordAPIError: " ++ jsonResponse.message.getD "" ++ " ("
        ++ toString (jsonResponse.code.getD 0) ++ ")")
      endpoint method data)
  else
    none

/-- `sub` occurs contiguously inside `s`. -/
def containsSub (s sub : String) : Prop :=
  ∃ a b, s = a ++ (sub ++ b)

/-- String append is list append on the character data, hence
associative. -/
theorem str_append_assoc (a b c : String) :
    a ++ b ++ c = a ++ (b ++ c) := by
  apply String.ext
  simp [List.append_assoc]

/-- The diagnostic text contains the endpoint. -/
theorem errText_contains_endpoint (head endpoint method : String)
    (data : Option String) :
    containsSub (errText head endpoint method data) endpoint := by
  refine ⟨head ++ "\nEndpoint: ",
    "\nMethod: " ++ (method ++ ("\nData: " ++ data.getD "empty")), ?_⟩
  simp [errText, str_append_assoc]

/-- The diagnostic text contains the method. -/
theorem errText_contains_method (head endpoint method : String)
    (data : Option String) :
    containsSub (errText head endpoint method data) method := by
  refine ⟨head ++ ("\nEndpoint: " ++ (endpoint ++ "\nMethod: ")),
    "\nData: " ++ data.getD "empty", ?_⟩
  simp [errText, str_append_assoc]

/-- The diagnostic text contains the request body when one is present. -/
theorem errText_contains_data (head endpoint method : String) (b : String) :
    containsSub (errText head endpoint method (some b)) b := by
  refine ⟨head ++ ("\nEndpoint: " ++ (endpoint ++ ("\nMethod: "
    ++ (method ++ "\nData: ")))), "", ?_⟩
  simp [errText, str_append_assoc]

/-- The channel obtained by upserting the payload
`\x7bid:"10", name:"general", type:0\x7d` into a fresh `Channel`. -/
def c2Ch1 : Channel :=
  Channel.construct (some ⟨some "10", some "general", some 0⟩) none

/-- `c2Ch1` after the further update payload
`\x7bid:"10", name:"general-renamed"\x7d` (no `type` key). -/
def c2Ch2 : Channel :=
  c2Ch1.parseData (some ⟨some "10", some "general-renamed", none⟩)

/-- The cached channel representative for id `"10"` in the C9 scenario. -/
def c9Cached : Channel :=
  Channel.construct (some ⟨some "10", some "general", some 0⟩) none

/-- C1: partial-merge law for entity update — a `Message` holding
`content = x` and `pinned = y`, updated through `parseData` with a payload
carrying only `content = x2`, ends with `content = x2`, `pinned = y`, and
every other stored field untouched: a field absent from the incoming
payload keeps the previously-cached value, a field present overwrites. -/
theorem c1_partial_merge (m m2 : Message) (x x2 : String) (y : Bool)
    (_hA : m.data.content = some x) (hB : m.data.pinned = some y)
    (hup : m2 = m.parseData
      (some { MessageData.empty with content := some x2 })) :
    m2.data.content = some x2 ∧ m2.data.pinned = some y
    ∧ m2.data.id = m.data.id
    ∧ m2.data.channel_id = m.data.channel_id
    ∧ m2.data.guild_id = m.data.guild_id
    ∧ m2.data.author = m.data.author
    ∧ m2.data.tts = m.data.tts
    ∧ m2.data.embeds = m.data.embeds
    ∧ m2.data.components = m.data.components
    ∧ m2.data.type = m.data.type := by
  subst hup
  simp [Message.parseData, spreadMerge, jsOverride, MessageData.empty, hB]

/-- Witness for C1 at a concrete message: content `"a"`/pinned `true`
updated with a content-only payload `"c"`. -/
theorem c1_partial_merge_witness :
    (Message.parseData
      (Message.construct { MessageData.empty with
        content := some "a", pinned := some true })
      (some { MessageData.empty with content := some "c" })).data.content
        = some "c" :=
  (c1_partial_merge
    (Message.construct { MessageData.empty with
      content := some "a", pinned := some true }) _ "a" "c" true rfl rfl
    rfl).1

/-- C2 counterexample: in the spec's re-upsert scenario the renamed channel
does get name `"general-renamed"` and keeps id `"10"`, but its `type` — set
to `GUILD_TEXT` by the first payload — is **not** retained: the second
payload lacks a `type` key and `parseData` unconditionally recomputes
`RawChannelTypes[data.type] ?? 'UNKNOWN'`, so the type becomes `UNKNOWN`. -/
theorem c2_counterexample :
    c2Ch1.type = some "GUILD_TEXT"
    ∧ c2Ch2.name = some "general-renamed"
    ∧ c2Ch2.id = some "10"
    ∧ c2Ch2.type = some "UNKNOWN"
    ∧ c2Ch2.type ≠ c2Ch1.type := by
  refine ⟨rfl, rfl, rfl, rfl, ?_⟩
  decide

/-- C2 amended: after upserting `\x7bid:"10", name:"general", type:0\x7d` and
then `\x7bid:"10", name:"general-renamed"\x7d`, the channel reads name
`"general-renamed"` and id `"10"`, and its other previously-set fields are
retained **except** the type, which is recomputed from the incoming payload
on every update and resets to `UNKNOWN` because the second payload carries
no `type` field. -/
theorem c2_reupsert :
    c2Ch2.name = some "general-renamed" ∧ c2Ch2.id = some "10"
    ∧ c2Ch2.createdTimestamp = c2Ch1.createdTimestamp
    ∧ c2Ch2.guild = c2Ch1.guild
    ∧ c2Ch2.type = some "UNKNOWN" :=
  ⟨rfl, rfl, rfl, rfl, rfl⟩

/-- C8 counterexample: a channel constructed with id `"10"` and then updated
with a payload carrying id `"11"` ends with identity key `"11"` — an update
payload containing a different id overwrites the identity key (the same
holds for `Message.parseData`, whose spread merge lets an incoming `id`
win). -/
theorem c8_counterexample :
    (Channel.construct (some ⟨some "10", some "general", some 0⟩) none).id
      = some "10"
    ∧ ((Channel.construct (some ⟨some "10", some "general", some 0⟩)
        none).parseData (some ⟨some "11", none, none⟩)).id = some "11"
    ∧ some "11" ≠ some "10" := by
  refine ⟨rfl, rfl, ?_⟩
  decide

/-- C8 amended: an update whose payload omits the identity field, or carries
the entity's current id, preserves the identity key — for both
`Message.parseData` and `Channel.parseData` — hence any sequence of such
updates leaves the construction-time identity in place; but a payload
carrying a different id does overwrite the identity key. -/
theorem c8_identity_stability (m : Message) (p : MessageData) (c : Channel)
    (d : ChannelData)
    (hm : p.id = none ∨ p.id = m.data.id)
    (hc : d.id = none ∨ d.id = c.id) :
    (m.parseData (some p)).data.id = m.data.id
    ∧ (c.parseData (some d)).id = c.id := by
  constructor
  · rcases hm with h | h
    · simp [Message.parseData, spreadMerge, jsOverride, h]
    · cases hp : p.id with
      | none => simp [Message.parseData, spreadMerge, jsOverride, hp]
      | some v =>
        rw [hp] at h
        simp only [Message.parseData, spreadMerge, jsOverride, hp]
        exact h
  · rcases hc with h | h
    · cases hn : d.name <;> simp [Channel.parseData, h, hn]
    · cases hd : d.id with
      | none => cases hn : d.name <;> simp [Channel.parseData, hd, hn]
      | some v =>
        rw [hd] at h
        cases hn : d.name <;>
          simp only [Channel.parseData, hd, hn] <;>
          exact h

/-- Witness for C8 at concrete entities: id-less update payloads leave the
identity keys of a concrete message and channel unchanged. -/
theorem c8_identity_stability_witness :
    ((Message.construct { MessageData.empty with id := some "1" }).parseData
      (some { MessageData.empty with content := some "hi" })).data.id
        = some "1"
    ∧ ((Channel.construct (some ⟨some "10", some "general", some 0⟩)
        none).parseData (some ⟨none, some "renamed", none⟩)).id
          = some "10" :=
  c8_identity_stability
    (Message.construct { MessageData.empty with id := some "1" })
    { MessageData.empty with content := some "hi" }
    (Channel.construct (some ⟨some "10", some "general", some 0⟩) none)
    ⟨none, some "renamed", none⟩ (Or.inl rfl) (Or.inl rfl)

/-- C3 counterexample: evaluating the `author` accessor is not a pure read —
on a message whose author `"u1"` is not in the user cache, the accessor's
`?? updateOrSet` fallback adds an entry to the user manager's cache, so the
state after the read differs from the state before it. -/
theorem c3_counterexample :
    (Message.author
      (Message.construct { MessageData.empty with
        id := some "1", author := some ⟨"u1", none⟩ })
      ⟨[], [], []⟩).2
      ≠ (⟨[], [], []⟩ : ClientState) := by
  decide

/-- C3 amended: the `channel` and `guild` accessors are pure reads, but the
`author` accessor is not — on a user-cache hit it leaves the client state
unchanged, while on a miss it inserts the message's embedded author payload
into the user manager's cache; in either case the channel and guild caches
are untouched and no network I/O occurs. -/
theorem c3_resolver_effects (m : Message) (s : ClientState) (a : APIUser)
    (ha : m.data.author = some a) :
    ((assocGet s.users a.id).isSome = true → (Message.author m s).2 = s)
    ∧ (assocGet s.users a.id = none →
        (Message.author m s).2
          = { s with users := s.users ++ [(a.id, a)] })
    ∧ (Message.author m s).2.channels = s.channels
    ∧ (Message.author m s).2.guilds = s.guilds := by
  cases hg : assocGet s.users a.id with
  | some u =>
    refine ⟨fun _ => ?_, fun hn => ?_, ?_, ?_⟩ <;>
      simp_all [Message.author, ha, hg]
  | none =>
    refine ⟨fun hs => ?_, fun _ => ?_, ?_, ?_⟩ <;>
      simp_all [Message.author, ClientState.usersUpdateOrSet, ha, hg]

/-- Witness for C3 at a concrete message and state: the author `"u1"` is
already cached, so reading `author` leaves the state unchanged. -/
theorem c3_resolver_effects_witness :
    (Message.author
      (Message.construct { MessageData.empty with
        id := some "1", author := some ⟨"u1", none⟩ })
      ⟨[("u1", ⟨"u1", none⟩)], [], []⟩).2
      = (⟨[("u1", ⟨"u1", none⟩)], [], []⟩ : ClientState) :=
  (c3_resolver_effects
    (Message.construct { MessageData.empty with
      id := some "1", author := some ⟨"u1", none⟩ })
    ⟨[("u1", ⟨"u1", none⟩)], [], []⟩ ⟨"u1", none⟩ rfl).1 (by decide)

/-- C4: when a message's referenced channel id is not in the channel
manager's cache (and the message payload carries no guild id of its own,
so the guild accessor falls back through the channel), `Message.channel`
evaluates to the explicit absent value and `Message.guild` does too —
relation resolution is total and never throws on a missing key. -/
theorem c4_absent_resolution (m : Message) (s : ClientState)
    (hc : ∀ cid, m.data.channel_id = some cid →
      assocGet s.channels cid = none)
    (hg : m.data.guild_id = none) :
    Message.channel m s = none ∧ Message.guild m s = none := by
  have hch : Message.channel m s = none := by
    cases hcid : m.data.channel_id with
    | none => simp [Message.channel, truthyStr, hcid]
    | some cid =>
      by_cases he : cid = "" <;>
        simp [Message.channel, truthyStr, hcid, he, hc cid hcid]
  refine ⟨hch, ?_⟩
  simp [Message.guild, Message.guildId, truthyStr, hg, hch]

/-- Witness for C4 at a concrete message referencing channel `"10"` against
empty caches. -/
theorem c4_absent_resolution_witness :
    Message.channel
      (Message.construct { MessageData.empty with
        id := some "1", channel_id := some "10" }) ⟨[], [], []⟩ = none
    ∧ Message.guild
      (Message.construct { MessageData.empty with
        id := some "1", channel_id := some "10" }) ⟨[], [], []⟩ = none :=
  c4_absent_resolution
    (Message.construct { MessageData.empty with
      id := some "1", channel_id := some "10" })
    ⟨[], [], []⟩
    (by intro cid h; injection h with h2; subst h2; rfl) rfl

/-- C5 counterexample: on a message constructed from a payload without an
`embeds` field, the `embeds` accessor does not read as an empty sequence —
the source dereferences `this.data.embeds.map` without optional chaining,
which throws a `TypeError` on the absent field (modelled as `none`, which
is not `some []`). -/
theorem c5_counterexample :
    Message.embeds
      (Message.construct { MessageData.empty with id := some "1" }) = none
    ∧ Message.embeds
      (Message.construct { MessageData.empty with id := some "1" })
      ≠ some [] := by
  refine ⟨rfl, ?_⟩
  decide

/-- C5 amended: optional fields absent from the payload read as
type-appropriate empty defaults — `content` as `""`, `pinned` and `tts` as
`false`, `components` as the empty sequence — **except** `embeds`, whose
accessor does not default: it fails (JS `TypeError`, modelled as `none`)
when the `embeds` field is absent. -/
theorem c5_optional_defaults (d : MessageData)
    (h1 : d.content = none) (h2 : d.pinned = none) (h3 : d.tts = none)
    (h4 : d.components = none) (h5 : d.embeds = none) :
    Message.content (Message.construct d) = ""
    ∧ Message.pinned (Message.construct d) = false
    ∧ Message.tts (Message.construct d) = false
    ∧ Message.components (Message.construct d) = []
    ∧ Message.embeds (Message.construct d) = none := by
  simp [Message.content, Message.pinned, Message.tts, Message.components,
    Message.embeds, Message.construct, h1, h2, h3, h4, h5]

/-- Witness for C5 at the all-absent payload. -/
theorem c5_optional_defaults_witness :
    Message.content (Message.construct MessageData.empty) = ""
    ∧ Message.pinned (Message.construct MessageData.empty) = false
    ∧ Message.tts (Message.construct MessageData.empty) = false
    ∧ Message.components (Message.construct MessageData.empty) = []
    ∧ Message.embeds (Message.construct MessageData.empty) = none :=
  c5_optional_defaults MessageData.empty rfl rfl rfl rfl rfl

/-- C6 counterexample: a structured JSON response that carries both a code
and a message — code `0` and message `"oops"` — raises no error, because
the source tests `jsonResponse.code && jsonResponse.message` and the number
`0` is falsy in JS; so "error raised iff the response carries both a code
and a message" fails as stated. -/
theorem c6_counterexample :
    verifyForJSONStatusCode ⟨some 0, some "oops"⟩ "channels/10"
      (some "body") "POST" = none
    ∧ (JSONResponse.mk (some 0) (some "oops")).code.isSome = true
    ∧ (JSONResponse.mk (some 0) (some "oops")).message.isSome = true := by
  refine ⟨?_, rfl, rfl⟩
  decide

/-- C6 amended: `verifyForStatusCode` raises exactly on transport status
400, 401, 403 or 404, and `verifyForJSONStatusCode` raises exactly when the
JSON response carries a *truthy* code (present and nonzero) and a *truthy*
message (present and nonempty) — JS `&&` truthiness, so a carried code `0`
or empty message raises nothing; every raised error's text contains the
attempted endpoint, the method, and, when a request body is present, the
body. -/
theorem c6_remote_rejection (endpoint method : String)
    (data : Option String) (code : Nat) (j : JSONResponse) :
    ((verifyForStatusCode endpoint data code method).isSome = true
      ↔ (code = 400 ∨ code = 401 ∨ code = 403 ∨ code = 404))
    ∧ ((verifyForJSONStatusCode j endpoint data method).isSome = true
      ↔ (jsTruthyNum j.code = true ∧ jsTruthyStrB j.message = true))
    ∧ (∀ err, verifyForStatusCode endpoint data code method = some err →
        containsSub err endpoint ∧ containsSub err method
        ∧ ∀ b, data = some b → containsSub err b)
    ∧ (∀ err, verifyForJSONStatusCode j endpoint data method = some err →
        containsSub err endpoint ∧ containsSub err method
        ∧ ∀ b, data = some b → containsSub err b) := by
  refine ⟨?_, ?_, ?_, ?_⟩
  · unfold verifyForStatusCode
    split_ifs with h1 h2 h3 h4 <;> simp [*]
  · cases hcv : jsTruthyNum j.code <;>
      cases hmv : jsTruthyStrB j.message <;>
      simp [verifyForJSONStatusCode, hcv, hmv]
  · intro err herr
    unfold verifyForStatusCode at herr
    split_ifs at herr <;>
      first
      | exact Option.noConfusion herr
      | · injection herr with h
          subst h
          exact ⟨errText_contains_endpoint _ _ _ _,
            errText_contains_method _ _ _ _,
            fun b hb => by
              rw [hb]
              exact errText_contains_data _ _ _ b⟩
  · intro err herr
    unfold verifyForJSONStatusCode at herr
    split_ifs at herr
    injection herr with h
    subst h
    exact ⟨errText_contains_endpoint _ _ _ _,
      errText_contains_method _ _ _ _,
      fun b hb => by
        rw [hb]
        exact errText_contains_data _ _ _ b⟩

/-- Witness for C6 at concrete requests: status 404 raises, and a JSON
response with nonzero code `50013` and nonempty message raises. -/
theorem c6_remote_rejection_witness :
    (verifyForStatusCode "channels/10" (some "body") 404 "DELETE").isSome
      = true
    ∧ (verifyForJSONStatusCode ⟨some 50013, some "Missing Permissions"⟩
        "channels/10" (some "body") "POST").isSome = true :=
  ⟨(c6_remote_rejection "channels/10" "DELETE" (some "body") 404
      ⟨some 50013, some "Missing Permissions"⟩).1.mpr
      (Or.inr (Or.inr (Or.inr rfl))),
    (c6_remote_rejection "channels/10" "POST" (some "body") 404
      ⟨some 50013, some "Missing Permissions"⟩).2.1.mpr
      ⟨by decide, by decide⟩⟩

/-- C7 counterexample: constructing entities from payloads lacking the
identity field succeeds — neither constructor has a validation or throw
path, so no `MalformedPayload` (or any) error is raised; the `Message`
constructor stores the payload unvalidated and its id then reads absent,
and the `Channel` constructor leaves its id unset. -/
theorem c7_counterexample :
    Message.id
      (Message.construct { MessageData.empty with content := some "hi" })
      = none
    ∧ (Channel.construct (some ⟨none, some "general", some 0⟩) none).id
      = none :=
  ⟨rfl, rfl⟩

/-- C7 amended: constructing a `Message` or `Channel` from a payload
lacking the identity field does not fail — there is no `MalformedPayload`
check in the sources; the `Message` constructor stores the payload
unvalidated (its id accessor then reads absent), the `Channel` constructor
leaves its id unset, and construction involves no manager-cache access at
all (neither constructor touches a cache, so no partial mutation can
occur). -/
theorem c7_no_validation (d : MessageData) (dc : ChannelData)
    (g : Option Guild) (hd : d.id = none) (hdc : dc.id = none) :
    (Message.construct d).data = d
    ∧ Message.id (Message.construct d) = none
    ∧ (Channel.construct (some dc) g).id = none := by
  refine ⟨rfl, ?_, ?_⟩
  · simp [Message.id, Message.construct, hd]
  · cases hn : dc.name <;>
      simp [Channel.construct, Channel.parseData, hdc, hn]

/-- Witness for C7 at concrete identity-less payloads. -/
theorem c7_no_validation_witness :
    (Message.construct { MessageData.empty with content := some "hi" }).data
      = { MessageData.empty with content := some "hi" }
    ∧ Message.id
      (Message.construct { MessageData.empty with content := some "hi" })
      = none
    ∧ (Channel.construct (some ⟨none, some "general", some 0⟩) none).id
      = none :=
  c7_no_validation { MessageData.empty with content := some "hi" }
    ⟨none, some "general", some 0⟩ none rfl rfl

/-- C9 counterexample: with the channel manager's cache holding the
representative for id `"10"`, the pure response-handling step of
`Channel.delete` — `new Channel(this.client, data, this.guild)` — returns
an object different from that cached representative (the response payload
lacks `name`, and the fresh construction does not retain the cached one):
the resolution value is a newly constructed detached object, not the
cached representative, and no manager `upsert` is involved. -/
theorem c9_counterexample :
    assocGet (ClientState.mk [] [("10", c9Cached)] []).channels "10"
      = some c9Cached
    ∧ Channel.deleteResult c9Cached (some ⟨some "10", none, none⟩)
      ≠ c9Cached := by
  refine ⟨rfl, ?_⟩
  decide

/-- C9 amended: `Channel.delete` builds its resolution value freshly from
the response payload via the `Channel` constructor, without consulting or
updating the owning manager's cache — the returned object's fields come
only from the response (a name absent from the response reads absent even
if the entity had one) plus the deleting channel's `guild` back-reference,
so it is a detached instance rather than the cached representative. -/
theorem c9_delete_detached (c : Channel) (d : ChannelData)
    (hn : d.name = none) :
    (Channel.deleteResult c (some d)).name = none
    ∧ (Channel.deleteResult c (some d)).id = d.id
    ∧ (Channel.deleteResult c (some d)).guild = c.guild := by
  cases hd : d.id <;>
    simp [Channel.deleteResult, Channel.construct, Channel.parseData,
      hd, hn]

/-- Witness for C9 at the concrete cached channel and a name-less delete
response. -/
theorem c9_delete_detached_witness :
    (Channel.deleteResult c9Cached (some ⟨some "10", none, none⟩)).name
      = none
    ∧ (Channel.deleteResult c9Cached (some ⟨some "10", none, none⟩)).id
      = some "10"
    ∧ (Channel.deleteResult c9Cached (some ⟨some "10", none, none⟩)).guild
      = c9Cached.guild :=
  c9_delete_detached c9Cached ⟨some "10", none, none⟩ rfl

/-- C10: applying an update with an undefined payload is a total no-op for
both entity kinds — `Message.parseData` returns on `!data` and
`Channel.parseData` returns on `typeof data === 'undefined'`, leaving every
field unchanged and raising nothing. -/
theorem c10_undefined_payload_noop :
    (∀ m : Message, m.parseData none = m)
    ∧ (∀ c : Channel, c.parseData none = c) :=
  ⟨fun _ => rfl, fun _ => rfl⟩

end Helly
